import Mathlib

/-!
Verification development for a small chat-application backend.

The backend consists of three source files:
* a Gemini generation service (`formatResponse`, `generateChatResponse`),
* an Express HTTP layer (`index.js`) with a JSON-file user store
  (`getUserData` / `saveUserData`) and route handlers for chat creation,
  message sending and post-hoc message actions.

The JavaScript code is embedded shallowly:
* strings are Lean `String` / `List Char`; JavaScript's `String.prototype.length`
  and `substring` (UTF-16 code units) are modelled as code-point operations,
  which agree on the inputs exercised here;
* the per-user JSON files are a total map `String → Option UserData`; the JSON
  round trip `JSON.parse (JSON.stringify d)` is the identity on the record
  shapes the backend stores, so file contents are modelled as the records
  themselves;
* the external Gemini API is an opaque parameter (`api` / `gen`); each embedded
  operation additionally reports which external calls it makes, so that
  "no generation call happens" is a provable statement;
* JavaScript regular-expression global replacement is embedded as left-to-right
  scanning functions.  The scanners use an explicit fuel argument equal to the
  input length: every scanning step consumes at least one character and exactly
  one unit of fuel, so fuel `l.length` never runs out and the fueled function
  computes the full scan while remaining structurally recursive.
-/

/-! ## Character classes used by the source's regular expressions -/

/-- The backtick character, written via its code point. -/
def backtick : Char := Char.ofNat 96

/-- JavaScript `\s`: whitespace as matched by the source's `#+\s*` regex and by
`String.prototype.trim`. -/
def isJsSpace (c : Char) : Bool :=
  c == ' ' || c == '\t' || c == '\n' || c == '\r' ||
  c == '\x0b' || c == '\x0c' || c == '\u00a0' || c == '\u1680' ||
  (0x2000 ≤ c.toNat && c.toNat ≤ 0x200a) ||
  c == '\u2028' || c == '\u2029' || c == '\u202f' || c == '\u205f' ||
  c == '\u3000' || c == '\ufeff'

/-- JavaScript line terminators: the characters NOT matched by `.` in a regex. -/
def isLineTerm (c : Char) : Bool :=
  c == '\n' || c == '\r' || c == '\u2028' || c == '\u2029'

/-- JavaScript `String.prototype.trim`. -/
def jsTrim (l : List Char) : List Char :=
  ((l.dropWhile isJsSpace).reverse.dropWhile isJsSpace).reverse

/-- String-level wrapper for `jsTrim` (`content.trim()` in the source). -/
def jsTrimStr (s : String) : String := (jsTrim s.data).asString

/-- JavaScript `String.prototype.length` (modelled on code points). -/
def jsCharLen (s : String) : Nat := s.data.length

/-- JavaScript `s.substring(0, n)` (modelled on code points). -/
def jsTake (s : String) (n : Nat) : String := (s.data.take n).asString

/-! ## The response formatter (`formatResponse` in geminiService.js)

Each `.replace(regex, …)` pass is one scanner.  The source applies, in order:
`#+\s*` → `''`, `\*\*(.*?)\*\*` → `$1`, `\*(.*?)\*` → `$1`,
a 1–3 backtick code-span regex → `$1`, `\[(.*?)\]\(.*?\)` → `$1`,
`\n{3,}` → `'\n\n'`, and finally `.trim()`. -/

/-- Pass 1, `text.replace(/#+\s*/g, '')`: at a `#`, greedily drop the run of
`#`s and the following whitespace run, then resume scanning. -/
def removeHeadingsF : Nat → List Char → List Char
  | 0, l => l
  | _ + 1, [] => []
  | fuel + 1, c :: cs =>
    if c = '#' then
      removeHeadingsF fuel ((cs.dropWhile (fun x => x = '#')).dropWhile isJsSpace)
    else
      c :: removeHeadingsF fuel cs

def removeHeadings (l : List Char) : List Char := removeHeadingsF l.length l

/-- Lazy search for the closing `**` of `/\*\*(.*?)\*\*/`: the inner `.*?`
matches anything but a line terminator, and the earliest `**` closes. -/
def findClose2 : List Char → Option (List Char × List Char)
  | [] => none
  | c :: cs =>
    if c = '*' then
      match cs with
      | d :: rest =>
        if d = '*' then some ([], rest)
        else (findClose2 cs).map fun p => (c :: p.1, p.2)
      | [] => none
    else if isLineTerm c then none
    else (findClose2 cs).map fun p => (c :: p.1, p.2)

/-- Pass 2, `text.replace(/\*\*(.*?)\*\*/g, '$1')`. -/
def removeBoldF : Nat → List Char → List Char
  | 0, l => l
  | _ + 1, [] => []
  | fuel + 1, c :: cs =>
    if c = '*' then
      match cs with
      | d :: rest =>
        if d = '*' then
          match findClose2 rest with
          | some p => p.1 ++ removeBoldF fuel p.2
          | none => c :: removeBoldF fuel cs
        else c :: removeBoldF fuel cs
      | [] => c :: removeBoldF fuel cs
    else c :: removeBoldF fuel cs

def removeBold (l : List Char) : List Char := removeBoldF l.length l

/-- Lazy search for the closing `*` of `/\*(.*?)\*/`. -/
def findClose1 : List Char → Option (List Char × List Char)
  | [] => none
  | c :: cs =>
    if c = '*' then some ([], cs)
    else if isLineTerm c then none
    else (findClose1 cs).map fun p => (c :: p.1, p.2)

/-- Pass 3, `text.replace(/\*(.*?)\*/g, '$1')`. -/
def removeItalicsF : Nat → List Char → List Char
  | 0, l => l
  | _ + 1, [] => []
  | fuel + 1, c :: cs =>
    if c = '*' then
      match findClose1 cs with
      | some p => p.1 ++ removeItalicsF fuel p.2
      | none => c :: removeItalicsF fuel cs
    else c :: removeItalicsF fuel cs

def removeItalics (l : List Char) : List Char := removeItalicsF l.length l

/-- Greedy closing-backtick consumption for the code-span regex: consume
`min run 3` backticks (at least one). -/
def closeTicks (l : List Char) : Option (List Char) :=
  let k := (l.takeWhile (fun c => c = backtick)).length
  if k = 0 then none else some (l.drop (min k 3))

/-- Lazy inner scan of the code-span regex: at the first backtick the greedy
closing group matches; `.*?` cannot cross a line terminator. -/
def findCloseTicks : List Char → Option (List Char × List Char)
  | [] => none
  | c :: cs =>
    if c = backtick then
      match closeTicks (c :: cs) with
      | some r => some ([], r)
      | none => none
    else if isLineTerm c then none
    else (findCloseTicks cs).map fun p => (c :: p.1, p.2)

/-- Backtracking over the opening group: the greedy opener first consumes
`j` backticks, falling back to fewer on failure (`j` counts down). -/
def tryOpens : Nat → List Char → Option (List Char × List Char)
  | 0, _ => none
  | j + 1, l =>
    match findCloseTicks (l.drop (j + 1)) with
    | some r => some r
    | none => tryOpens j l

/-- Attempt of the code-span regex at the current position: up to three
backticks open (greedy), lazy inner text, up to three backticks close. -/
def matchCode (l : List Char) : Option (List Char × List Char) :=
  let k := min ((l.takeWhile (fun c => c = backtick)).length) 3
  if k = 0 then none else tryOpens k l

/-- Pass 4: the code-span replacement keeping the inner text. -/
def removeCodeF : Nat → List Char → List Char
  | 0, l => l
  | _ + 1, [] => []
  | fuel + 1, c :: cs =>
    if c = backtick then
      match matchCode (c :: cs) with
      | some p => p.1 ++ removeCodeF fuel p.2
      | none => c :: removeCodeF fuel cs
    else c :: removeCodeF fuel cs

def removeCode (l : List Char) : List Char := removeCodeF l.length l

/-- Scan for the first `)` closing `\(.*?\)`; `.` cannot cross a line
terminator. -/
def findParen : List Char → Option (List Char)
  | [] => none
  | c :: cs =>
    if c = ')' then some cs
    else if isLineTerm c then none
    else findParen cs

/-- Lazy search for `\](\(.*?\))` in `/\[(.*?)\]\(.*?\)/`: a `]` closes the
link text only if a parenthesised part follows; otherwise backtracking lets
`.*?` absorb the `]` and the scan continues. -/
def findBracket : List Char → Option (List Char × List Char)
  | [] => none
  | c :: cs =>
    if c = ']' then
      match cs with
      | d :: r =>
        if d = '(' then
          match findParen r with
          | some rest => some ([], rest)
          | none => (findBracket cs).map fun p => (c :: p.1, p.2)
        else (findBracket cs).map fun p => (c :: p.1, p.2)
      | [] => (findBracket cs).map fun p => (c :: p.1, p.2)
    else if isLineTerm c then none
    else (findBracket cs).map fun p => (c :: p.1, p.2)

/-- Pass 5, `text.replace(/\[(.*?)\]\(.*?\)/g, '$1')`. -/
def removeLinksF : Nat → List Char → List Char
  | 0, l => l
  | _ + 1, [] => []
  | fuel + 1, c :: cs =>
    if c = '[' then
      match findBracket cs with
      | some p => p.1 ++ removeLinksF fuel p.2
      | none => c :: removeLinksF fuel cs
    else c :: removeLinksF fuel cs

def removeLinks (l : List Char) : List Char := removeLinksF l.length l

/-- Pass 6, `text.replace(/\n{3,}/g, '\n\n')`: a maximal run of three or more
newlines becomes exactly two. -/
def collapseNewlinesF : Nat → List Char → List Char
  | 0, l => l
  | _ + 1, [] => []
  | fuel + 1, c :: cs =>
    if c = '\n' then
      let run := cs.takeWhile (fun x => x = '\n')
      let rest := cs.dropWhile (fun x => x = '\n')
      (if run.length + 1 ≥ 3 then ['\n', '\n'] else c :: run) ++
        collapseNewlinesF fuel rest
    else c :: collapseNewlinesF fuel cs

def collapseNewlines (l : List Char) : List Char := collapseNewlinesF l.length l

/-- The whole `formatResponse` pipeline, on character lists. -/
def formatList (l : List Char) : List Char :=
  jsTrim (collapseNewlines (removeLinks (removeCode (removeItalics
    (removeBold (removeHeadings l))))))

/-- `formatResponse` from geminiService.js. -/
def formatResponse (s : String) : String := (formatList s.data).asString

/-! ## The generation client (`generateChatResponse` in geminiService.js)

The external Gemini model is opaque: it is a parameter mapping a call shape
(either a seeded chat session plus a new turn, or a standalone prompt) to
either generated text or a thrown transport error.  The embedded function
also returns the list of external calls it performed, so that the absence of
a network call is expressible. -/

/-- A history entry as the service receives it (only `sender` and `content`
are read by the source). -/
structure GenMsg where
  sender : String
  content : String
deriving DecidableEq

/-- A role-tagged context entry: `{ role, parts: [{ text }] }` in the source. -/
structure ContextEntry where
  role : String
  text : String
deriving DecidableEq

/-- The two shapes of external model invocation the source performs:
`model.startChat({history}).sendMessage(last)` or
`model.generateContent(last)`. -/
inductive ModelCall
  | chatSession (history : List ContextEntry) (newTurn : String)
  | standalone (prompt : String)
deriving DecidableEq

/-- The two failure kinds of `generateChatResponse`: the input-validation
throw `'Chat history is empty'` (rethrown unchanged by the outer catch) and
the wrapped API failure `'Failed to generate response from Gemini'`. -/
inductive GenError
  | invalidInput (msg : String)
  | generation (msg : String)
deriving DecidableEq

/-- The context mapping in the source:
`{ role: msg.sender === 'user' ? 'user' : 'model', parts: [{ text: msg.content }] }`. -/
def toEntry (m : GenMsg) : ContextEntry :=
  { role := if m.sender == "user" then "user" else "model", text := m.content }

/-- `generateChatResponse(chatHistory)` from geminiService.js.  A null or
absent history behaves like an empty one (both take the validation throw in
the source), so both are modelled by `[]`.  Returns the result together with
the list of external model calls made. -/
def generateChatResponse (api : ModelCall → Except String String)
    (chatHistory : List GenMsg) : Except GenError String × List ModelCall :=
  if chatHistory.length = 0 then
    (Except.error (GenError.invalidInput "Chat history is empty"), [])
  else
    let history := chatHistory.dropLast.map toEntry
    let lastUserMessage := (chatHistory.getLast?.getD { sender := "", content := "" }).content
    let call := if history.length > 0 then
        ModelCall.chatSession history lastUserMessage
      else
        ModelCall.standalone lastUserMessage
    match api call with
    | Except.ok text => (Except.ok (formatResponse text), [call])
    | Except.error _ =>
        (Except.error (GenError.generation "Failed to generate response from Gemini"), [call])

/-- The external call `generateChatResponse` performs on the non-empty
history `ms ++ [m]`: a seeded session when the mapped context is non-empty,
a standalone prompt otherwise. -/
def expectedCall (ms : List GenMsg) (m : GenMsg) : ModelCall :=
  if ms.isEmpty then ModelCall.standalone m.content
  else ModelCall.chatSession (ms.map toEntry) m.content

/-! ## The user store (`getUserData` / `saveUserData` in index.js) -/

/-- One message of a chat, as persisted. -/
structure Message where
  id : String
  content : String
  sender : String
  timestamp : String
deriving DecidableEq

/-- One chat of a user, as persisted. -/
structure Chat where
  id : String
  title : String
  messages : List Message
  createdAt : String
deriving DecidableEq

/-- The full per-user record (one JSON file per username). -/
structure UserData where
  username : String
  chats : List Chat
deriving DecidableEq

/-- The data directory: one optional record per username. -/
def Store : Type := String → Option UserData

/-- `getUserData(username)`: parse the user's file when it exists, otherwise
a fresh in-memory record `{ username, chats: [] }`. -/
def getUserData (store : Store) (username : String) : UserData :=
  match store username with
  | some d => d
  | none => { username := username, chats := [] }

/-- `getUserData` with the filesystem effect made explicit: the source only
calls `existsSync` and `readFileSync`, never a write, so the store comes back
unchanged and no file is created for a fresh username. -/
def getUserDataFS (store : Store) (username : String) : UserData × Store :=
  (getUserData store username, store)

/-- `saveUserData(username, data)`: overwrite the user's file. -/
def saveUserData (store : Store) (username : String) (data : UserData) : Store :=
  fun u => if u = username then some data else store u

/-- Observation helper: the first chat with the given id in the user's
persisted record (mirrors `userData.chats.find(c => c.id === chatId)`). -/
def storedChat (store : Store) (username chatId : String) : Option Chat :=
  (store username).bind fun ud => ud.chats.find? (fun c => c.id == chatId)

/-- In-place mutation of the object returned by `Array.prototype.find`:
replace the first element satisfying `p`. -/
def updateFirst {α : Type} (p : α → Bool) (f : α → α) : List α → List α
  | [] => []
  | x :: xs => if p x then f x :: xs else x :: updateFirst p f xs

/-! ## The HTTP handlers (index.js)

Each handler is a function of the incoming request, the current store and the
(opaque) generation service.  `Date.now()` and `new Date().toISOString()` are
modelled as parameters `now` / `nowIso` held fixed for the duration of one
request; the source derives the AI message id as `Date.now() + 1`. -/

/-- Outcome of one request: HTTP status, the store after the request, and
whether the generation service was invoked. -/
structure HandlerResult where
  status : Nat
  store : Store
  genCalled : Bool

/-- JavaScript falsiness of an optional string field (`!messageId`):
absent, null and the empty string are falsy. -/
def falsyStr : Option String → Bool
  | none => true
  | some s => s == ""

/-- Projection passed to the generation service: `generateChatResponse`
reads only `sender` and `content` of each message object. -/
def Message.toGenMsg (m : Message) : GenMsg :=
  { sender := m.sender, content := m.content }

/-- `POST /api/chats/:username` (create chat).  The handler reads nothing
from the request body: `bodyTitle` is ignored and the title is always
`'New Chat'`.  (`getUserData` never returns a falsy value, so the handler's
`if (!userData) return 404` branch is dead and is not modelled.) -/
def createChat (store : Store) (username : String) (_bodyTitle : Option String)
    (now : Nat) (nowIso : String) : HandlerResult :=
  let userData := getUserData store username
  let newChat : Chat :=
    { id := toString now, title := "New Chat", messages := [], createdAt := nowIso }
  let userData2 := { userData with chats := newChat :: userData.chats }
  { status := 200, store := saveUserData store username userData2, genCalled := false }

/-- `POST /api/chats/:username/:chatId/messages` (send message).

Control flow of the source: blank content → 400; the dead `!userData`
check is skipped; `userData.chats.find` with no match leaves `chat`
undefined and the subsequent `chat.messages` access throws a TypeError that
the handler's catch turns into a 500 (there is no chat-not-found 404 in this
handler); otherwise the title is derived from the untrimmed `content` when
the chat was empty, the trimmed user message is pushed, the generation
service is called with the full message list, a failure is caught as 500
with nothing saved, and on success the AI message is pushed and the record
saved. -/
def sendMessage (gen : List GenMsg → Except String String) (store : Store)
    (username chatId : String) (content : Option String)
    (now : Nat) (nowIso : String) : HandlerResult :=
  match content with
  | none => { status := 400, store := store, genCalled := false }
  | some c =>
    if jsTrimStr c = "" then { status := 400, store := store, genCalled := false }
    else
      let userData := getUserData store username
      match userData.chats.find? (fun ch => ch.id == chatId) with
      | none => { status := 500, store := store, genCalled := false }
      | some chat =>
        let newTitle :=
          if chat.messages.length = 0 then
            (if jsCharLen c > 30 then jsTake c 30 ++ "..." else c)
          else chat.title
        let userMessage : Message :=
          { id := toString now, content := jsTrimStr c, sender := "user", timestamp := nowIso }
        let messages1 := chat.messages ++ [userMessage]
        match gen (messages1.map Message.toGenMsg) with
        | Except.error _ => { status := 500, store := store, genCalled := true }
        | Except.ok text =>
          let aiMessage : Message :=
            { id := toString (now + 1), content := text, sender := "ai", timestamp := nowIso }
          let chat2 := { chat with title := newTitle, messages := messages1 ++ [aiMessage] }
          let userData2 :=
            { userData with
              chats := updateFirst (fun ch => ch.id == chatId) (fun _ => chat2) userData.chats }
          { status := 200, store := saveUserData store username userData2, genCalled := true }

/-- `POST /api/chats/:username/:chatId/actions` (concise/expand rewrite).

Control flow of the source: falsy `messageId` or `action` → 400; chat not
found → 404; AI message not found → 404; action neither `'concise'` nor
`'expand'` → 400; otherwise a rewrite prompt is built, the generation
service is called as a single-turn exchange, failure is caught as 500 with
nothing saved, and on success the message content and timestamp are
overwritten and the record saved. -/
def applyAction (gen : List GenMsg → Except String String) (store : Store)
    (username chatId : String) (messageId action : Option String)
    (nowIso : String) : HandlerResult :=
  if falsyStr messageId || falsyStr action then
    { status := 400, store := store, genCalled := false }
  else
    let mid := messageId.getD ""
    let act := action.getD ""
    let userData := getUserData store username
    match userData.chats.find? (fun c => c.id == chatId) with
    | none => { status := 404, store := store, genCalled := false }
    | some chat =>
      match chat.messages.find? (fun m => m.id == mid && m.sender == "ai") with
      | none => { status := 404, store := store, genCalled := false }
      | some message =>
        match (if act == "concise" then
                 some ("Make this response more concise while keeping the main points:\n\n"
                   ++ message.content)
               else if act == "expand" then
                 some ("Expand on this response with more details and examples:\n\n"
                   ++ message.content)
               else none) with
        | none => { status := 400, store := store, genCalled := false }
        | some prompt =>
          match gen [{ sender := "user", content := prompt }] with
          | Except.error _ => { status := 500, store := store, genCalled := true }
          | Except.ok newContent =>
            let message2 := { message with content := newContent, timestamp := nowIso }
            let chat2 :=
              { chat with
                messages := updateFirst (fun m => m.id == mid && m.sender == "ai")
                  (fun _ => message2) chat.messages }
            let userData2 :=
              { userData with
                chats := updateFirst (fun c => c.id == chatId) (fun _ => chat2) userData.chats }
            { status := 200, store := saveUserData store username userData2, genCalled := true }

/-! ## Cleanliness predicate for the formatter's idempotence

A string is clean when it contains none of the markup the formatter removes:
no `#`, `*`, backtick or `[`, no run of three newlines, and no leading or
trailing whitespace. -/

/-- No three consecutive newline characters occur in the list. -/
def noTripleNl : List Char → Bool
  | a :: b :: c :: rest =>
      !(a == '\n' && b == '\n' && c == '\n') && noTripleNl (b :: c :: rest)
  | _ => true

/-- Decidable cleanliness of a string with respect to the formatter. -/
def cleanStr (x : String) : Bool :=
  decide ('#' ∉ x.data) && decide ('*' ∉ x.data) && decide (backtick ∉ x.data) &&
  decide ('[' ∉ x.data) && noTripleNl x.data && decide (jsTrim x.data = x.data)

/-! ## Concrete fixtures used by witnesses and counterexamples -/

/-- A user record holding one empty chat `c1`. -/
def demoStore : Store := fun u =>
  if u = "alice" then
    some { username := "alice",
           chats := [{ id := "c1", title := "New Chat", messages := [], createdAt := "t0" }] }
  else none

/-- A user record holding one chat `c1` that contains one AI message `m1`. -/
def actionStore : Store := fun u =>
  if u = "alice" then
    some { username := "alice",
           chats := [{ id := "c1", title := "T",
                       messages := [{ id := "m1", content := "orig", sender := "ai",
                                      timestamp := "t1" }],
                       createdAt := "t0" }] }
  else none

/-! ## Helper lemmas -/

/-- Replacing the first match commutes with `find?` when the replacement
still satisfies the predicate. -/
theorem find?_updateFirst {α : Type} (p : α → Bool) (f : α → α) :
    ∀ (l : List α) (a : α), l.find? p = some a → p (f a) = true →
      (updateFirst p f l).find? p = some (f a) := by
  intro l
  induction l with
  | nil => intro a h _; simp at h
  | cons x xs ih =>
    intro a h hf
    by_cases hx : p x = true
    · rw [List.find?_cons_of_pos _ hx] at h
      injection h with h
      subst h
      simp only [updateFirst, if_pos hx]
      exact List.find?_cons_of_pos _ hf
    · rw [List.find?_cons_of_neg _ hx] at h
      simp only [updateFirst, if_neg hx]
      rw [List.find?_cons_of_neg _ hx]
      exact ih a h hf

/-- Pass 1 is the identity on `#`-free input. -/
theorem removeHeadingsF_id : ∀ (fuel : Nat) (l : List Char), l.length ≤ fuel →
    '#' ∉ l → removeHeadingsF fuel l = l := by
  intro fuel
  induction fuel with
  | zero => intro l _ _; rfl
  | succ n ih =>
    intro l hl hmem
    cases l with
    | nil => rfl
    | cons c cs =>
      have hc : ¬ c = '#' := fun h => hmem (h ▸ List.mem_cons_self c cs)
      have hcs : '#' ∉ cs := fun h => hmem (List.mem_cons_of_mem _ h)
      simp only [removeHeadingsF, if_neg hc]
      rw [ih cs (Nat.le_of_succ_le_succ (by simpa using hl)) hcs]

/-- Pass 2 is the identity on `*`-free input. -/
theorem removeBoldF_id : ∀ (fuel : Nat) (l : List Char), l.length ≤ fuel →
    '*' ∉ l → removeBoldF fuel l = l := by
  intro fuel
  induction fuel with
  | zero => intro l _ _; rfl
  | succ n ih =>
    intro l hl hmem
    cases l with
    | nil => rfl
    | cons c cs =>
      have hc : ¬ c = '*' := fun h => hmem (h ▸ List.mem_cons_self c cs)
      have hcs : '*' ∉ cs := fun h => hmem (List.mem_cons_of_mem _ h)
      simp only [removeBoldF, if_neg hc]
      rw [ih cs (Nat.le_of_succ_le_succ (by simpa using hl)) hcs]

/-- Pass 3 is the identity on `*`-free input. -/
theorem removeItalicsF_id : ∀ (fuel : Nat) (l : List Char), l.length ≤ fuel →
    '*' ∉ l → removeItalicsF fuel l = l := by
  intro fuel
  induction fuel with
  | zero => intro l _ _; rfl
  | succ n ih =>
    intro l hl hmem
    cases l with
    | nil => rfl
    | cons c cs =>
      have hc : ¬ c = '*' := fun h => hmem (h ▸ List.mem_cons_self c cs)
      have hcs : '*' ∉ cs := fun h => hmem (List.mem_cons_of_mem _ h)
      simp only [removeItalicsF, if_neg hc]
      rw [ih cs (Nat.le_of_succ_le_succ (by simpa using hl)) hcs]

/-- Pass 4 is the identity on backtick-free input. -/
theorem removeCodeF_id : ∀ (fuel : Nat) (l : List Char), l.length ≤ fuel →
    backtick ∉ l → removeCodeF fuel l = l := by
  intro fuel
  induction fuel with
  | zero => intro l _ _; rfl
  | succ n ih =>
    intro l hl hmem
    cases l with
    | nil => rfl
    | cons c cs =>
      have hc : ¬ c = backtick := fun h => hmem (h ▸ List.mem_cons_self c cs)
      have hcs : backtick ∉ cs := fun h => hmem (List.mem_cons_of_mem _ h)
      simp only [removeCodeF, if_neg hc]
      rw [ih cs (Nat.le_of_succ_le_succ (by simpa using hl)) hcs]

/-- Pass 5 is the identity on `[`-free input. -/
theorem removeLinksF_id : ∀ (fuel : Nat) (l : List Char), l.length ≤ fuel →
    '[' ∉ l → removeLinksF fuel l = l := by
  intro fuel
  induction fuel with
  | zero => intro l _ _; rfl
  | succ n ih =>
    intro l hl hmem
    cases l with
    | nil => rfl
    | cons c cs =>
      have hc : ¬ c = '[' := fun h => hmem (h ▸ List.mem_cons_self c cs)
      have hcs : '[' ∉ cs := fun h => hmem (List.mem_cons_of_mem _ h)
      simp only [removeLinksF, if_neg hc]
      rw [ih cs (Nat.le_of_succ_le_succ (by simpa using hl)) hcs]

/-- Dropping the head preserves the absence of a triple newline. -/
theorem noTripleNl_tail (c : Char) (l : List Char) (h : noTripleNl (c :: l) = true) :
    noTripleNl l = true := by
  match l with
  | [] => rfl
  | [x] => rfl
  | x :: y :: rest =>
    simp only [noTripleNl, Bool.and_eq_true] at h
    exact h.2

/-- Pass 6 on the empty list. -/
theorem collapseNewlinesF_nil (n : Nat) : collapseNewlinesF n [] = [] := by
  cases n <;> rfl

/-- Pass 6 is the identity when no three consecutive newlines occur. -/
theorem collapseNewlinesF_id : ∀ (fuel : Nat) (l : List Char), l.length ≤ fuel →
    noTripleNl l = true → collapseNewlinesF fuel l = l := by
  intro fuel
  induction fuel with
  | zero => intro l _ _; rfl
  | succ n ih =>
    intro l hl hnl
    cases l with
    | nil => rfl
    | cons c cs =>
      by_cases hc : c = '\n'
      · subst hc
        cases cs with
        | nil =>
          simp [collapseNewlinesF, collapseNewlinesF_nil]
        | cons d cs2 =>
          by_cases hd : d = '\n'
          · subst hd
            cases cs2 with
            | nil =>
              simp [collapseNewlinesF, List.takeWhile_cons, List.dropWhile_cons,
                collapseNewlinesF_nil]
            | cons e cs3 =>
              have he : ¬ e = '\n' := by
                intro he
                subst he
                simp [noTripleNl] at hnl
              have hnl2 : noTripleNl (e :: cs3) = true :=
                noTripleNl_tail _ _ (noTripleNl_tail _ _ hnl)
              have hlen : (e :: cs3).length ≤ n := by
                simp only [List.length_cons] at hl ⊢
                omega
              simp only [collapseNewlinesF, if_pos rfl, List.takeWhile_cons,
                List.dropWhile_cons, if_neg he, decide_eq_true_eq]
              simp only [decide_True, if_true, List.takeWhile_nil]
              rw [ih _ hlen hnl2]
              simp
          · have hnl2 : noTripleNl (d :: cs2) = true := noTripleNl_tail _ _ hnl
            have hlen : (d :: cs2).length ≤ n := by
              simp only [List.length_cons] at hl ⊢
              omega
            simp only [collapseNewlinesF, if_pos rfl, List.takeWhile_cons,
              List.dropWhile_cons, if_neg hd, decide_eq_true_eq]
            rw [ih _ hlen hnl2]
            simp
      · have hnl2 : noTripleNl cs = true := noTripleNl_tail _ _ hnl
        have hlen : cs.length ≤ n := by
          simp only [List.length_cons] at hl
          omega
        simp only [collapseNewlinesF, if_neg hc]
        rw [ih _ hlen hnl2]

/-- The whole pipeline is the identity on clean character lists. -/
theorem formatList_clean (l : List Char)
    (h1 : '#' ∉ l) (h2 : '*' ∉ l) (h3 : backtick ∉ l) (h4 : '[' ∉ l)
    (h5 : noTripleNl l = true) (h6 : jsTrim l = l) :
    formatList l = l := by
  unfold formatList removeHeadings removeBold removeItalics removeCode removeLinks
    collapseNewlines
  rw [removeHeadingsF_id l.length l le_rfl h1]
  rw [removeBoldF_id l.length l le_rfl h2]
  rw [removeItalicsF_id l.length l le_rfl h2]
  rw [removeCodeF_id l.length l le_rfl h3]
  rw [removeLinksF_id l.length l le_rfl h4]
  rw [collapseNewlinesF_id l.length l le_rfl h5]
  exact h6

/-- The formatter fixes every clean string. -/
theorem formatResponse_clean (x : String) (h : cleanStr x = true) :
    formatResponse x = x := by
  simp only [cleanStr, Bool.and_eq_true, decide_eq_true_eq] at h
  obtain ⟨⟨⟨⟨⟨h1, h2⟩, h3⟩, h4⟩, h5⟩, h6⟩ := h
  unfold formatResponse
  rw [formatList_clean x.data h1 h2 h3 h4 h5 h6]
  rfl

/-- The success path of the send-message handler, in closed form. -/
theorem sendMessage_success (gen : List GenMsg → Except String String) (store : Store)
    (username chatId c : String) (now : Nat) (nowIso : String) (chat : Chat) (t : String)
    (hc : ¬ jsTrimStr c = "")
    (hfind : (getUserData store username).chats.find? (fun ch => ch.id == chatId) = some chat)
    (hgen : ∀ msgs, gen msgs = Except.ok t) :
    sendMessage gen store username chatId (some c) now nowIso =
      { status := 200,
        store := saveUserData store username
          { getUserData store username with
            chats := updateFirst (fun ch => ch.id == chatId)
              (fun _ =>
                { chat with
                  title := if chat.messages.length = 0 then
                      (if jsCharLen c > 30 then jsTake c 30 ++ "..." else c)
                    else chat.title,
                  messages := (chat.messages ++
                    [{ id := toString now, content := jsTrimStr c, sender := "user",
                       timestamp := nowIso }]) ++
                    [{ id := toString (now + 1), content := t, sender := "ai",
                       timestamp := nowIso }] })
              (getUserData store username).chats },
        genCalled := true } := by
  simp only [sendMessage, if_neg hc, hfind, hgen]

/-- The generation-failure path of the send-message handler: 500 and the
store untouched. -/
theorem sendMessage_genFailure (gen : List GenMsg → Except String String) (store : Store)
    (username chatId c : String) (now : Nat) (nowIso : String) (chat : Chat) (e : String)
    (hc : ¬ jsTrimStr c = "")
    (hfind : (getUserData store username).chats.find? (fun ch => ch.id == chatId) = some chat)
    (hgen : ∀ msgs, gen msgs = Except.error e) :
    sendMessage gen store username chatId (some c) now nowIso =
      { status := 500, store := store, genCalled := true } := by
  simp only [sendMessage, if_neg hc, hfind, hgen]

/-- After a successful send, the persisted chat is the found chat with the
derived title and both new messages appended. -/
theorem storedChat_after_success (gen : List GenMsg → Except String String) (store : Store)
    (username chatId c : String) (now : Nat) (nowIso : String) (chat : Chat) (t : String)
    (hc : ¬ jsTrimStr c = "")
    (hfind : (getUserData store username).chats.find? (fun ch => ch.id == chatId) = some chat)
    (hgen : ∀ msgs, gen msgs = Except.ok t) :
    storedChat (sendMessage gen store username chatId (some c) now nowIso).store
        username chatId =
      some { chat with
        title := if chat.messages.length = 0 then
            (if jsCharLen c > 30 then jsTake c 30 ++ "..." else c)
          else chat.title,
        messages := (chat.messages ++
          [{ id := toString now, content := jsTrimStr c, sender := "user",
             timestamp := nowIso }]) ++
          [{ id := toString (now + 1), content := t, sender := "ai",
             timestamp := nowIso }] } := by
  rw [sendMessage_success gen store username chatId c now nowIso chat t hc hfind hgen]
  have hp := List.find?_some hfind
  dsimp only
  simp only [storedChat, saveUserData, if_pos rfl, Option.some_bind]
  exact find?_updateFirst _ _ _ chat hfind (by simpa using hp)

/-- C7: the formatter is a total pure function on strings: on the sample
markup string it returns the cleaned text, and it is idempotent on every
already-clean string (one containing no markup the formatter removes). -/
theorem formatter_example_and_idempotent :
    formatResponse "**bold** and *italic* and # Heading\n\n\n\nend" =
      "bold and italic and Heading\n\nend" ∧
    ∀ x : String, cleanStr x = true →
      formatResponse (formatResponse x) = formatResponse x := by
  constructor
  · decide
  · intro x hx
    rw [formatResponse_clean x hx, formatResponse_clean x hx]

/-- Witness for C7 at the concrete clean string "plain text". -/
theorem formatter_example_and_idempotent_witness :
    cleanStr "plain text" = true ∧
    formatResponse (formatResponse "plain text") = formatResponse "plain text" :=
  ⟨by decide, formatter_example_and_idempotent.2 "plain text" (by decide)⟩

/-- C8: loading a never-seen username returns the fresh record
`{username, chats: []}` without creating a file, and load-after-save returns
a record equal to the one saved. -/
theorem store_load_save_roundtrip (store : Store) (u : String) :
    (store u = none →
      getUserData store u = { username := u, chats := [] } ∧
      getUserDataFS store u = ({ username := u, chats := [] }, store)) ∧
    getUserData (saveUserData store u (getUserData store u)) u = getUserData store u := by
  constructor
  · intro h
    refine ⟨?_, ?_⟩
    · simp [getUserData, h]
    · simp [getUserDataFS, getUserData, h]
  · simp [getUserData, saveUserData]

/-- Witness for C8 at the empty store and username "alice". -/
theorem store_load_save_roundtrip_witness :
    getUserData (fun _ => none) "alice" = { username := "alice", chats := [] } ∧
    getUserData (saveUserData (fun _ => none) "alice"
      (getUserData (fun _ => none) "alice")) "alice" =
      getUserData (fun _ => none) "alice" :=
  ⟨((store_load_save_roundtrip (fun _ => none) "alice").1 rfl).1,
   (store_load_save_roundtrip (fun _ => none) "alice").2⟩

/-- The behavior of `generateChatResponse` on any non-empty history, as a
single case analysis on the external call's outcome. -/
theorem generateChatResponse_concat (api : ModelCall → Except String String)
    (ms : List GenMsg) (m : GenMsg) :
    generateChatResponse api (ms ++ [m]) =
      (match api (expectedCall ms m) with
       | Except.ok text => (Except.ok (formatResponse text), [expectedCall ms m])
       | Except.error _ =>
         (Except.error (GenError.generation "Failed to generate response from Gemini"),
          [expectedCall ms m])) := by
  unfold generateChatResponse expectedCall
  rw [if_neg (by simp)]
  rw [List.dropLast_concat, List.getLast?_concat]
  by_cases hms : ms = []
  · subst hms
    simp
  · have h1 : 0 < ms.length := List.length_pos.mpr hms
    have h2 : ms.isEmpty = false := by simp [hms]
    simp [h1, h2]

/-- C3: on a non-empty history the client maps all but the last message to a
role-tagged context (sender "user" becomes role "user", anything else role
"model"); a non-empty context seeds a stateful session and the last message
is sent as the new turn, an empty context sends the last message standalone;
the model's text comes back through the formatter. -/
theorem generateChat_nonempty_behavior (api : ModelCall → Except String String)
    (ms : List GenMsg) (m : GenMsg) (t : String)
    (h : api (expectedCall ms m) = Except.ok t) :
    generateChatResponse api (ms ++ [m]) =
      (Except.ok (formatResponse t), [expectedCall ms m]) := by
  rw [generateChatResponse_concat, h]

/-- Witness for C3 at a concrete two-message history. -/
theorem generateChat_nonempty_behavior_witness :
    generateChatResponse (fun _ => Except.ok "answer")
      [{ sender := "user", content := "hi" }, { sender := "ai", content := "yo" }] =
      (Except.ok (formatResponse "answer"),
       [expectedCall [{ sender := "user", content := "hi" }]
         { sender := "ai", content := "yo" }]) :=
  generateChat_nonempty_behavior (fun _ => Except.ok "answer")
    [{ sender := "user", content := "hi" }] { sender := "ai", content := "yo" } "answer" rfl

/-- C6: an empty (or absent) history fails with the input-validation error
and performs no model call; this error is distinct from the GenerationError
produced when the API call fails. -/
theorem generateChat_empty_history (api : ModelCall → Except String String) :
    generateChatResponse api [] =
      (Except.error (GenError.invalidInput "Chat history is empty"), []) ∧
    (∀ s t, GenError.invalidInput s ≠ GenError.generation t) ∧
    (∀ (e : String) (ms : List GenMsg) (m : GenMsg),
      api (expectedCall ms m) = Except.error e →
      (generateChatResponse api (ms ++ [m])).1 =
        Except.error (GenError.generation "Failed to generate response from Gemini")) := by
  refine ⟨rfl, ?_, ?_⟩
  · intro s t h
    exact GenError.noConfusion h
  · intro e ms m h
    rw [generateChatResponse_concat, h]

/-- Witness for C6: empty history with a failing api, plus the API-failure
error shape on a singleton history. -/
theorem generateChat_empty_history_witness :
    generateChatResponse (fun _ => Except.error "boom") [] =
      (Except.error (GenError.invalidInput "Chat history is empty"), []) ∧
    (generateChatResponse (fun _ => Except.error "boom")
      [{ sender := "user", content := "hi" }]).1 =
      Except.error (GenError.generation "Failed to generate response from Gemini") :=
  ⟨(generateChat_empty_history (fun _ => Except.error "boom")).1,
   (generateChat_empty_history (fun _ => Except.error "boom")).2.2 "boom" []
     { sender := "user", content := "hi" } rfl⟩

/-- C2: when the generation call fails (throws), the handler returns 500 and
no partial-success state is persisted: the user's stored record is exactly
what it was before the request, with neither the user message nor any AI
message written to the store. -/
theorem sendMessage_genFailure_no_persist (gen : List GenMsg → Except String String)
    (store : Store) (username chatId c : String) (now : Nat) (nowIso : String)
    (chat : Chat) (e : String)
    (hc : ¬ jsTrimStr c = "")
    (hfind : (getUserData store username).chats.find? (fun ch => ch.id == chatId) = some chat)
    (hgen : ∀ msgs, gen msgs = Except.error e) :
    (sendMessage gen store username chatId (some c) now nowIso).status = 500 ∧
    (sendMessage gen store username chatId (some c) now nowIso).store = store := by
  rw [sendMessage_genFailure gen store username chatId c now nowIso chat e hc hfind hgen]
  exact ⟨rfl, rfl⟩

/-- Witness for C2 at a concrete store whose chat `c1` exists and an
always-failing generation service. -/
theorem sendMessage_genFailure_no_persist_witness :
    (sendMessage (fun _ => Except.error "boom") demoStore "alice" "c1"
      (some "hi") 7 "ts").status = 500 ∧
    (sendMessage (fun _ => Except.error "boom") demoStore "alice" "c1"
      (some "hi") 7 "ts").store = demoStore :=
  sendMessage_genFailure_no_persist (fun _ => Except.error "boom") demoStore "alice" "c1"
    "hi" 7 "ts"
    { id := "c1", title := "New Chat", messages := [], createdAt := "t0" } "boom"
    (by decide) (by decide) (fun _ => rfl)

/-- C5: the first message appended to an empty chat sets the chat's title to
the message content when its length is at most 30 characters, and to the
first 30 characters followed by "..." when it exceeds 30; the ellipsis is
appended only in the latter case. -/
theorem first_message_title (gen : List GenMsg → Except String String) (store : Store)
    (username chatId c : String) (now : Nat) (nowIso : String) (chat : Chat) (t : String)
    (hc : ¬ jsTrimStr c = "")
    (hfind : (getUserData store username).chats.find? (fun ch => ch.id == chatId) = some chat)
    (hempty : chat.messages = [])
    (hgen : ∀ msgs, gen msgs = Except.ok t) :
    (jsCharLen c ≤ 30 →
      (storedChat (sendMessage gen store username chatId (some c) now nowIso).store
        username chatId).map Chat.title = some c) ∧
    (jsCharLen c > 30 →
      (storedChat (sendMessage gen store username chatId (some c) now nowIso).store
        username chatId).map Chat.title = some (jsTake c 30 ++ "...")) := by
  rw [storedChat_after_success gen store username chatId c now nowIso chat t hc hfind hgen]
  rw [hempty]
  constructor
  · intro hlen
    simp [Nat.not_lt.mpr hlen]
  · intro hlen
    simp [hlen]

/-- Witness for C5 at the short first message "hello". -/
theorem first_message_title_witness :
    (storedChat (sendMessage (fun _ => Except.ok "re") demoStore "alice" "c1"
      (some "hello") 7 "ts").store "alice" "c1").map Chat.title = some "hello" :=
  (first_message_title (fun _ => Except.ok "re") demoStore "alice" "c1" "hello" 7 "ts"
    { id := "c1", title := "New Chat", messages := [], createdAt := "t0" } "re"
    (by decide) (by decide) rfl (fun _ => rfl)).1 (by decide)

/-- C10: whitespace-only content is rejected with 400; on success the
persisted user message's content is the trimmed input, while the
first-message title is derived from the untrimmed input (both the 30-char
length test and the substring use the original content). -/
theorem sendMessage_trim_title_behavior (gen : List GenMsg → Except String String)
    (store : Store) (username chatId c : String) (now : Nat) (nowIso : String) :
    (jsTrimStr c = "" →
      sendMessage gen store username chatId (some c) now nowIso =
        { status := 400, store := store, genCalled := false }) ∧
    (∀ chat t,
      (getUserData store username).chats.find? (fun ch => ch.id == chatId) = some chat →
      chat.messages = [] → ¬ jsTrimStr c = "" → (∀ msgs, gen msgs = Except.ok t) →
      storedChat (sendMessage gen store username chatId (some c) now nowIso).store
          username chatId =
        some { chat with
          title := if jsCharLen c > 30 then jsTake c 30 ++ "..." else c,
          messages := [{ id := toString now, content := jsTrimStr c, sender := "user",
                         timestamp := nowIso },
                       { id := toString (now + 1), content := t, sender := "ai",
                         timestamp := nowIso }] }) := by
  constructor
  · intro h
    simp only [sendMessage, if_pos h]
  · intro chat t hfind hempty hc hgen
    rw [storedChat_after_success gen store username chatId c now nowIso chat t hc hfind hgen]
    rw [hempty]
    simp

/-- Witness for C10: the input "  hi  " is stored trimmed as "hi", while the
title keeps the surrounding whitespace. -/
theorem sendMessage_trim_title_behavior_witness :
    storedChat (sendMessage (fun _ => Except.ok "re") demoStore "alice" "c1"
      (some "  hi  ") 7 "ts").store "alice" "c1" =
      some { id := "c1", title := "  hi  ",
             messages := [{ id := "7", content := "hi", sender := "user", timestamp := "ts" },
                          { id := "8", content := "re", sender := "ai", timestamp := "ts" }],
             createdAt := "t0" } :=
  (sendMessage_trim_title_behavior (fun _ => Except.ok "re") demoStore "alice" "c1"
    "  hi  " 7 "ts").2
    { id := "c1", title := "New Chat", messages := [], createdAt := "t0" } "re"
    (by decide) rfl (by decide) (fun _ => rfl)

/-- C1 (code bug): a send-message request naming a chat id absent from the
user's record does NOT answer 404: `userData.chats.find` leaves `chat`
undefined, the `chat.messages` access throws a TypeError, and the handler's
catch block answers 500; the store is unchanged and no generation call is
made. -/
theorem sendMessage_missing_chat_gives_500 :
    (sendMessage (fun _ => Except.ok "reply") demoStore "alice" "nochat"
      (some "hi") 7 "ts").status = 500 ∧
    (sendMessage (fun _ => Except.ok "reply") demoStore "alice" "nochat"
      (some "hi") 7 "ts").store = demoStore ∧
    (sendMessage (fun _ => Except.ok "reply") demoStore "alice" "nochat"
      (some "hi") 7 "ts").genCalled = false :=
  ⟨rfl, rfl, rfl⟩

/-- C4 counterexample: create-chat with an explicitly supplied title "My Chat"
still stores the title "New Chat" (the handler reads nothing from the request
body). -/
theorem createChat_supplied_title_ignored :
    ((createChat (fun _ => none) "alice" (some "My Chat") 5 "ts").store "alice") =
      some { username := "alice",
             chats := [{ id := "5", title := "New Chat", messages := [],
                         createdAt := "ts" }] } ∧
    ("New Chat" : String) ≠ "My Chat" := by
  constructor
  · rfl
  · decide

/-- C4 as amended: every create-chat request prepends a fresh chat with an
empty message sequence at position 0 and persists it; its title is always
"New Chat", regardless of any title supplied in the request. -/
theorem createChat_amended (store : Store) (u : String) (bt : Option String)
    (now : Nat) (iso : String) :
    (createChat store u bt now iso).status = 200 ∧
    (createChat store u bt now iso).store u =
      some { getUserData store u with
             chats := { id := toString now, title := "New Chat", messages := [],
                        createdAt := iso } :: (getUserData store u).chats } := by
  constructor
  · rfl
  · simp [createChat, saveUserData]

/-- C9 counterexample: an action request with the invalid action "shorten"
and a chat id absent from the record answers 404, not 400 (the chat lookup
precedes the action validation). -/
theorem applyAction_invalid_action_missing_chat :
    (applyAction (fun _ => Except.ok "x") actionStore "alice" "nochat" (some "m1")
      (some "shorten") "ts").status = 404 ∧
    ¬ (applyAction (fun _ => Except.ok "x") actionStore "alice" "nochat" (some "m1")
      (some "shorten") "ts").status = 400 := by
  constructor
  · rfl
  · decide

/-- C9 as amended: a request with missing (or empty) messageId or action
answers 400 with the store untouched and no generation call; a request whose
action is neither "concise" nor "expand" does so too, provided the addressed
chat and target AI message exist (otherwise the 404 checks fire first and the
store is still untouched). -/
theorem applyAction_invalid_amended (gen : List GenMsg → Except String String)
    (store : Store) (u cid : String) (mid act : Option String) (iso : String) :
    (falsyStr mid = true ∨ falsyStr act = true →
      applyAction gen store u cid mid act iso =
        { status := 400, store := store, genCalled := false }) ∧
    (∀ m a chat msg,
      mid = some m → act = some a → ¬ m = "" → ¬ a = "" →
      ¬ a = "concise" → ¬ a = "expand" →
      (getUserData store u).chats.find? (fun ch => ch.id == cid) = some chat →
      chat.messages.find? (fun x => x.id == m && x.sender == "ai") = some msg →
      applyAction gen store u cid mid act iso =
        { status := 400, store := store, genCalled := false }) := by
  constructor
  · intro h
    have hb : (falsyStr mid || falsyStr act) = true := by
      rcases h with h | h <;> simp [h]
    simp [applyAction, hb]
  · intro m a chat msg hm ha hm0 ha0 hac hae hchat hmsg
    subst hm
    subst ha
    simp [applyAction, falsyStr, hm0, ha0, hchat, hmsg, hac, hae]

/-- Witness for C9's amended theorem: action "shorten" on an existing chat
and AI message answers 400 and leaves the store unchanged. -/
theorem applyAction_invalid_amended_witness :
    applyAction (fun _ => Except.ok "x") actionStore "alice" "c1" (some "m1")
      (some "shorten") "ts" =
      { status := 400, store := actionStore, genCalled := false } :=
  (applyAction_invalid_amended (fun _ => Except.ok "x") actionStore "alice" "c1"
    (some "m1") (some "shorten") "ts").2 "m1" "shorten"
    { id := "c1", title := "T",
      messages := [{ id := "m1", content := "orig", sender := "ai", timestamp := "t1" }],
      createdAt := "t0" }
    { id := "m1", content := "orig", sender := "ai", timestamp := "t1" }
    rfl rfl (by decide) (by decide) (by decide) (by decide) (by decide) (by decide)
